import Mathlib

set_option linter.unusedVariables false

/-
Shallow embedding of `src/main.py` of the daily-digest repository.

The program fetches weather, news, stock and trivia data over HTTP and
renders a static HTML digest.  Network interaction is modelled by passing
each fetcher the outcome of its HTTP call explicitly (`HttpResult`); the
Python exception discipline is modelled with `Except PyErr`.  JSON bodies
are modelled by the inductive `Json`, and the handful of Python primitives
the script uses on them (subscripting, the `in` operator, `dict.get`,
truthiness, `float(...)`, `str.replace`, fixed-point `format`) are embedded
as total Lean functions returning `Except PyErr` where Python would raise.
Numbers are modelled as exact rationals; Python formats and parses IEEE
doubles, which agrees with the rational model on the sign tests and on the
short decimal literals used below, and differs only in binary-rounding
corner cases that no theorem here relies on.
-/

namespace DailyDigest

/-- Values produced by `response.json()`. -/
inductive Json where
| null : Json
| bool (b : Bool) : Json
| num (q : ℚ) : Json
| str (s : String) : Json
| arr (elems : List Json) : Json
| obj (fields : List (String × Json)) : Json

/-- Python exceptions that the script's code can raise while processing a
response body.  `requests` exceptions are part of `HttpResult` instead. -/
inductive PyErr where
| keyError (k : String) : PyErr
| valueError : PyErr
| typeError : PyErr
| attributeError : PyErr
| indexError : PyErr
deriving Repr, DecidableEq

/-- Outcome of one `requests.get(...)` call followed by
`response.raise_for_status()`.  `timeout` is `requests.exceptions.Timeout`;
`reqError` covers every other `requests.exceptions.RequestException`
(connection errors and the `HTTPError` raised by `raise_for_status` on a
non-2xx status), carrying the exception's display text.  `success` is a 2xx
response: `text` is `response.text`, and `jsonBody` is the result of
`response.json()` — either the parsed value or the display text of the
decode exception it raises, which in `requests` is a `RequestException`
subclass and so is absorbed by the same handlers as network errors. -/
inductive HttpResult where
| timeout : HttpResult
| reqError (msg : String) : HttpResult
| success (text : String) (jsonBody : Except String Json) : HttpResult

/-- Association-list lookup used to model Python dict access on a parsed
JSON object (first binding wins; parsed JSON has distinct keys). -/
def jsonLookup (fields : List (String × Json)) (k : String) : Option Json :=
  match fields with
  | [] => none
  | (k', v) :: rest => if k' = k then some v else jsonLookup rest k

/-- Python `x[k]` with a string key `k`: dict lookup raising `KeyError`
when absent; a `TypeError` on every non-dict value (list and str reject
string indices, the rest are not subscriptable). -/
def pySubscript (j : Json) (k : String) : Except PyErr Json :=
  match j with
  | .obj fields =>
      match jsonLookup fields k with
      | some v => .ok v
      | none => .error (.keyError k)
  | _ => .error .typeError

/-- Python `x[0]`: list indexing (`IndexError` when empty), string indexing
(one-character string, `IndexError` when empty), dict lookup with the int
key `0` (`KeyError`, since parsed-JSON keys are strings), `TypeError`
otherwise. -/
def pyIndexZero (j : Json) : Except PyErr Json :=
  match j with
  | .arr [] => .error .indexError
  | .arr (x :: _) => .ok x
  | .str s => if s = "" then .error .indexError else .ok (.str (String.mk (s.toList.take 1)))
  | .obj _ => .error (.keyError "0")
  | _ => .error .typeError

/-- Python `d.get(k)`: `None`-defaulting dict lookup; `AttributeError` on
every non-dict value. -/
def pyDictGet (j : Json) (k : String) : Except PyErr (Option Json) :=
  match j with
  | .obj fields => .ok (jsonLookup fields k)
  | _ => .error .attributeError

/-- Checks whether `needle` occurs as a contiguous substring, on the
character lists underlying strings. -/
def listContainsSub (needle : List Char) : List Char → Bool
  | [] => needle.isEmpty
  | c :: rest => needle.isPrefixOf (c :: rest) || listContainsSub needle rest

/-- Checks whether `needle` occurs as a contiguous substring of `s`. -/
def strContainsSub (s needle : String) : Bool :=
  listContainsSub needle.toList s.toList

/-- Python `needle in x` for a string `needle`: substring test on strings,
membership (by equality, so only string elements can match) on lists, key
membership on dicts, `TypeError` on non-iterables. -/
def pyIn (needle : String) (j : Json) : Except PyErr Bool :=
  match j with
  | .str s => .ok (strContainsSub s needle)
  | .arr xs => .ok (xs.any fun x => match x with | .str s => s = needle | _ => false)
  | .obj fields => .ok (fields.any fun kv => kv.1 = needle)
  | _ => .error .typeError

/-- Python truthiness of a parsed JSON value. -/
def pyTruthy (j : Json) : Bool :=
  match j with
  | .null => false
  | .bool b => b
  | .num q => q ≠ 0
  | .str s => s ≠ ""
  | .arr xs => !xs.isEmpty
  | .obj fields => !fields.isEmpty

/-- Replaces non-overlapping occurrences of `pat` left to right, `skip`
being the number of already-matched characters still to consume without
re-matching. -/
def replaceGo (pat rep : List Char) : List Char → Nat → List Char
  | [], _ => []
  | _ :: rest, skip + 1 => replaceGo pat rep rest skip
  | c :: rest, 0 =>
      if pat.isPrefixOf (c :: rest) then
        rep ++ replaceGo pat rep rest (pat.length - 1)
      else c :: replaceGo pat rep rest 0

/-- Python `str.replace` on character lists: all non-overlapping
occurrences, left to right; an empty pattern inserts `rep` around every
character. -/
def pyReplaceList (pat rep s : List Char) : List Char :=
  if pat.isEmpty then rep ++ s.flatMap (fun c => c :: rep)
  else replaceGo pat rep s 0

/-- Python `x.replace(old, new)` on a value expected to be a string:
`AttributeError` when it is not. -/
def pyStrReplace (j : Json) (old new : String) : Except PyErr String :=
  match j with
  | .str s => .ok (String.mk (pyReplaceList old.toList new.toList s.toList))
  | _ => .error .attributeError

/-- Characters Python's `float(str)` strips from both ends. -/
def isPythonSpace (c : Char) : Bool :=
  c = ' ' || c = '\t' || c = '\n' || c = '\r' || c = '\x0B' || c = '\x0C'

/-- Strips surrounding whitespace from a character list. -/
def stripChars (cs : List Char) : List Char :=
  ((cs.dropWhile isPythonSpace).reverse.dropWhile isPythonSpace).reverse

/-- Numeric value of the decimal digits in `cs` (which must all be digits). -/
def digitsVal (cs : List Char) : Nat :=
  cs.foldl (fun acc c => 10 * acc + (c.toNat - 48)) 0

/-- Splits a character list at the first occurrence of `sep`, if any. -/
def splitAtChar (sep : Char) : List Char → (List Char × Option (List Char))
  | [] => ([], none)
  | c :: rest =>
      if c = sep then ([], some rest)
      else
        let (pre, post) := splitAtChar sep rest
        (c :: pre, post)

/-- Parses an optional leading sign, returning the sign factor and the rest. -/
def parseSign : List Char → (Bool × List Char)
  | '-' :: rest => (true, rest)
  | '+' :: rest => (false, rest)
  | cs => (false, cs)

/-- Parses an unsigned decimal mantissa `digits[.digits]` (at least one
digit overall) as an exact rational. -/
def parseMantissa (cs : List Char) : Option ℚ :=
  let (intPart, fracPart?) := splitAtChar '.' cs
  let fracPart := fracPart?.getD []
  if intPart.all Char.isDigit ∧ fracPart.all Char.isDigit ∧
      (intPart ≠ [] ∨ fracPart ≠ []) then
    some ((digitsVal (intPart ++ fracPart) : ℚ) / ((10 : ℚ) ^ fracPart.length))
  else none

/-- Scales `q` by `10 ^ e` for a signed exponent given as sign and digits. -/
def applyExponent (q : ℚ) (negExp : Bool) (digits : List Char) : Option ℚ :=
  if digits ≠ [] ∧ digits.all Char.isDigit then
    let e := digitsVal digits
    some (if negExp then q / ((10 : ℚ) ^ e) else q * ((10 : ℚ) ^ e))
  else none

/-- Python `float(s)` on ordinary decimal literals: optional surrounding
whitespace, optional sign, decimal mantissa, optional `e`/`E` exponent.
Returns `none` (modelling `ValueError`) on anything else; the special
spellings `inf`/`nan`, underscores, and hexadecimal floats are not
modelled and also map to `none`. -/
def parseFloat (s : String) : Option ℚ :=
  let cs := stripChars s.toList
  let (neg, cs) := parseSign cs
  let (mant, exp?) := splitAtChar 'e' cs
  let (mant, exp?) :=
    match exp? with
    | some e => (mant, some e)
    | none => splitAtChar 'E' mant
  let base? :=
    match exp? with
    | none => parseMantissa mant
    | some ecs =>
        match parseMantissa mant with
        | none => none
        | some m =>
            let (negExp, ds) := parseSign ecs
            applyExponent m negExp ds
  match base? with
  | none => none
  | some q => some (if neg then -q else q)

/-- Python `float(x)` on a parsed JSON value: numbers pass through, bools
are 0/1, strings are parsed (`ValueError` on failure), everything else is
a `TypeError`. -/
def pyFloat (j : Json) : Except PyErr ℚ :=
  match j with
  | .num q => .ok q
  | .bool b => .ok (if b then 1 else 0)
  | .str s =>
      match parseFloat s with
      | some q => .ok q
      | none => .error .valueError
  | _ => .error .typeError

/-- Floor of a rational as an integer (the denominator is positive). -/
def ratFloor (q : ℚ) : ℤ :=
  Int.fdiv q.num q.den

/-- Rounds a rational to the nearest integer, ties to even — the rounding
Python's `format` applies for `:.Nf`. -/
def roundHalfEven (q : ℚ) : ℤ :=
  let f := ratFloor q
  let r := q - (f : ℚ)
  if r > 1 / 2 then f + 1
  else if r < 1 / 2 then f
  else if f % 2 = 0 then f else f + 1

/-- Pads a numeral string with leading zeros up to `width`. -/
def padZeros (width : Nat) (s : String) : String :=
  if s.length < width then
    (List.replicate (width - s.length) '0').asString ++ s
  else s

/-- Python `format(x, ".Nf")` on the exact rational value: fixed-point with
`decs` digits after the point (none, and no point, when `decs = 0`),
round-half-to-even, with the sign of negative inputs kept. -/
def formatFixed (decs : Nat) (q : ℚ) : String :=
  let neg := q < 0
  let n := (roundHalfEven (|q| * ((10 : ℚ) ^ decs))).toNat
  let intPart := n / 10 ^ decs
  let fracPart := n % 10 ^ decs
  (if neg then "-" else "") ++ toString intPart ++
    (if decs = 0 then "" else "." ++ padZeros decs (toString fracPart))

/-- Least number of decimal digits after the point that writes `q`
exactly, when `q` has a terminating decimal expansion of at most 64
digits. -/
def ratDecimalExp (q : ℚ) : Option Nat :=
  (List.range 65).find? fun d => (q * (10 : ℚ) ^ d).den = 1

/-- Decimal rendering of a rational: integers without a point, terminating
decimals exactly, anything else (unreachable from parsed JSON) as a
fraction. -/
def ratRepr (q : ℚ) : String :=
  if q.den = 1 then toString q.num
  else
    match ratDecimalExp q with
    | some d =>
        let n := (|q| * (10 : ℚ) ^ d).num.toNat
        (if q < 0 then "-" else "") ++ toString (n / 10 ^ d) ++ "." ++
          padZeros d (toString (n % 10 ^ d))
    | none => toString q.num ++ "/" ++ toString q.den

/-- Wraps a string in the single quotes Python's repr uses (inner escaping
is not modelled; no theorem below depends on it). -/
def pyQuote (s : String) : String :=
  String.singleton (Char.ofNat 39) ++ s ++ String.singleton (Char.ofNat 39)

mutual

/-- Python `repr(x)` of a parsed JSON value. -/
def pyRepr : Json → String
  | .null => "None"
  | .bool true => "True"
  | .bool false => "False"
  | .num q => ratRepr q
  | .str s => pyQuote s
  | .arr xs => "[" ++ String.intercalate ", " (pyReprList xs) ++ "]"
  | .obj fields => "\x7b" ++ String.intercalate ", " (pyReprFields fields) ++ "\x7d"

/-- Renders each list element with `pyRepr`. -/
def pyReprList : List Json → List String
  | [] => []
  | x :: rest => pyRepr x :: pyReprList rest

/-- Renders each dict binding with `pyRepr`. -/
def pyReprFields : List (String × Json) → List String
  | [] => []
  | (k, v) :: rest => (pyQuote k ++ ": " ++ pyRepr v) :: pyReprFields rest

end

/-- Python `str(x)` as applied by a plain f-string interpolation. -/
def pyStr (j : Json) : String :=
  match j with
  | .str s => s
  | _ => pyRepr j

/-- Python `format(x, ".Nf")` on a parsed JSON value: numbers and bools
format (bools as 0/1), strings raise `ValueError` (unknown format code for
`str`), the rest raise `TypeError`. -/
def pyFormatFixed (decs : Nat) (j : Json) : Except PyErr String :=
  match j with
  | .num q => .ok (formatFixed decs q)
  | .bool b => .ok (formatFixed decs (if b then 1 else 0))
  | .str _ => .error .valueError
  | _ => .error .typeError

/-- Body of `fetch_weather`'s `try` block after `response.json()`: the
field extractions `data['main']['temp']`, `data['weather'][0]['description']`,
`data['name']`, `data['sys']['country']` in source order, then the
f-string `"{city}, {country}: {temp:.0f}¬∞F with {description}."`. -/
def weatherBody (data : Json) : Except PyErr String := do
  let mainVal ← pySubscript data "main"
  let temp ← pySubscript mainVal "temp"
  let weatherArr ← pySubscript data "weather"
  let weather0 ← pyIndexZero weatherArr
  let description ← pySubscript weather0 "description"
  let city ← pySubscript data "name"
  let sysVal ← pySubscript data "sys"
  let country ← pySubscript sysVal "country"
  let tempStr ← pyFormatFixed 0 temp
  pure (pyStr city ++ ", " ++ pyStr country ++ ": " ++ tempStr ++
    "¬∞F with " ++ pyStr description ++ ".")

/-- The fallback `fetch_weather` returns when `requests` raises. -/
def weatherUnavailableMsg (location : String) : String :=
  "Weather data for " ++ location ++ " is temporarily unavailable."

/-- The message `fetch_weather`'s `except KeyError` handler returns. -/
def weatherBadFormatMsg : String :=
  "Error: Invalid data format received from weather API."

/-- Model of `fetch_weather(location, api_key)`: `net` is the outcome of
its one `requests.get`.  The `apiKey` only enters the request URL.  Its
handlers catch `RequestException` and `KeyError`; any other exception from
the body escapes the function, modelled as `.error`. -/
def fetch_weather (location : String) (apiKey : String) (net : HttpResult) :
    Except PyErr String :=
  match net with
  | .timeout => .ok (weatherUnavailableMsg location)
  | .reqError _ => .ok (weatherUnavailableMsg location)
  | .success _ (.error _) => .ok (weatherUnavailableMsg location)
  | .success _ (.ok data) =>
      match weatherBody data with
      | .ok s => .ok s
      | .error (.keyError _) => .ok weatherBadFormatMsg
      | .error e => .error e

/-- Python `for x in j`: lists yield elements, dicts their keys, strings
their characters, the rest raise `TypeError`. -/
def pyIterate (j : Json) : Except PyErr (List Json) :=
  match j with
  | .arr xs => .ok xs
  | .obj fields => .ok (fields.map fun kv => .str kv.1)
  | .str s => .ok (s.toList.map fun c => .str c.toString)
  | _ => .error .typeError

/-- The loop body of `fetch_news`: one `f"- {article['title']}"` line per
article, in order. -/
def newsHeadlines : List Json → Except PyErr (List String)
  | [] => .ok []
  | a :: rest => do
      let t ← pySubscript a "title"
      let tail ← newsHeadlines rest
      pure (("- " ++ pyStr t) :: tail)

/-- Body of `fetch_news`'s `try` block after `response.json()`: iterate
`data['articles']`, collect one bulleted title per article, join with
newlines. -/
def newsBody (data : Json) : Except PyErr String := do
  let articles ← pySubscript data "articles"
  let items ← pyIterate articles
  let headlines ← newsHeadlines items
  pure (String.intercalate "\n" headlines)

/-- The fallback `fetch_news` returns when `requests` raises. -/
def newsUnavailableMsg : String :=
  "Top news headlines are temporarily unavailable."

/-- The message `fetch_news`'s `except KeyError` handler returns. -/
def newsBadFormatMsg : String :=
  "Error: Invalid data format received from news API."

/-- Model of `fetch_news(topic, api_key)`: `net` is the outcome of its one
`requests.get`; handlers as in `fetch_weather`. -/
def fetch_news (topic : String) (apiKey : String) (net : HttpResult) :
    Except PyErr String :=
  match net with
  | .timeout => .ok newsUnavailableMsg
  | .reqError _ => .ok newsUnavailableMsg
  | .success _ (.error _) => .ok newsUnavailableMsg
  | .success _ (.ok data) =>
      match newsBody data with
      | .ok s => .ok s
      | .error (.keyError _) => .ok newsBadFormatMsg
      | .error e => .error e

/-- The fallback `fetch_fun_fact` returns when `requests` raises. -/
def funFactUnavailableMsg : String :=
  "A fun fact is not available right now. Try again later!"

/-- Model of `fetch_fun_fact()`: returns `response.text` verbatim on
success (the endpoint returns plain text; `response.json()` is never
called) and the fallback when `requests` raises.  No other exception can
arise, so the result is a plain string. -/
def fetch_fun_fact (net : HttpResult) : String :=
  match net with
  | .timeout => funFactUnavailableMsg
  | .reqError _ => funFactUnavailableMsg
  | .success text _ => text

/-- Observable actions of `fetch_stocks`, in program order: the
`time.sleep(13)` pauses and the `requests.get` calls (one per symbol
reached; the request URL is determined by the symbol and the API key). -/
inductive StockEvent where
| sleep (secs : Nat) : StockEvent
| request (symbol : String) : StockEvent
deriving Repr, DecidableEq

/-- The per-symbol rate-limit message of `fetch_stocks`. -/
def rateLimitMsg (symbol : String) : String :=
  symbol ++ ": API Rate Limit Hit - Waiting for next run."

/-- The per-symbol missing-quote message of `fetch_stocks`. -/
def invalidSymbolMsg (symbol : String) : String :=
  symbol ++ ": Error fetching data (likely invalid symbol)."

/-- The per-symbol timeout message of `fetch_stocks`. -/
def stockTimeoutMsg (symbol : String) : String :=
  symbol ++ ": Stock data currently unavailable (API timeout)."

/-- The per-symbol message of `fetch_stocks`'s `except RequestException`
handler, with the exception's display text interpolated. -/
def stockNetErrMsg (symbol : String) (e : String) : String :=
  symbol ++ ": Network or Request failed: " ++ e

/-- The per-symbol message of `fetch_stocks`'s `except (KeyError,
ValueError)` handler. -/
def stockParseErrMsg (symbol : String) : String :=
  symbol ++ ": Error parsing data (Check API key/symbol)."

/-- The direction indicator of a stock line, exactly the source's
conditional `"‚ñ≤" if change_percent > 0 else "‚ñº"` (the two literals
are the characters the source file contains). -/
def changeEmoji (changePercent : ℚ) : String :=
  if changePercent > 0 then "‚ñ≤" else "‚ñº"

/-- The success line of `fetch_stocks`:
`f"{symbol}: ${price:.2f} ({change_percent:.2f}%) {emoji}"`. -/
def stockLine (symbol : String) (price changePercent : ℚ) : String :=
  symbol ++ ": $" ++ formatFixed 2 price ++ " (" ++ formatFixed 2 changePercent ++
    "%) " ++ changeEmoji changePercent

/-- The source's rate-limit test `"Note" in data and "rate limit" in
data["Note"]`, with Python's short-circuit `and` and the exceptions the
two `in`s and the subscript can raise. -/
def rateLimitSignal (data : Json) : Except PyErr Bool :=
  match pyIn "Note" data with
  | .error e => .error e
  | .ok false => .ok false
  | .ok true =>
      match pySubscript data "Note" with
      | .error e => .error e
      | .ok note => pyIn "rate limit" note

/-- Body of `fetch_stocks`'s `try` block after `response.json()` for one
symbol: the rate-limit test, the `data.get('Global Quote')` truthiness
check, and the price / percent-change parsing.  Returns the message to
record together with the break flag (`true` exactly on the rate-limit
branch, which executes `break`). -/
def processBody (symbol : String) (data : Json) : Except PyErr (String × Bool) :=
  match rateLimitSignal data with
  | .error e => .error e
  | .ok true => .ok (rateLimitMsg symbol, true)
  | .ok false =>
      match pyDictGet data "Global Quote" with
      | .error e => .error e
      | .ok none => .ok (invalidSymbolMsg symbol, false)
      | .ok (some quote) =>
          if pyTruthy quote then
            match pySubscript quote "05. price" with
            | .error e => .error e
            | .ok priceJ =>
                match pyFloat priceJ with
                | .error e => .error e
                | .ok price =>
                    match pySubscript quote "10. change percent" with
                    | .error e => .error e
                    | .ok cpJ =>
                        match pyStrReplace cpJ "%" "" with
                        | .error e => .error e
                        | .ok cpStr =>
                            match parseFloat cpStr with
                            | none => .error .valueError
                            | some cp => .ok (stockLine symbol price cp, false)
          else .ok (invalidSymbolMsg symbol, false)

/-- One iteration of `fetch_stocks`'s loop after the request was issued:
dispatch on the HTTP outcome and apply the `except` clauses — `Timeout`
and `RequestException` to their per-symbol messages, `KeyError` and
`ValueError` from the body to the parse-error message; `TypeError`,
`AttributeError` and `IndexError` are uncaught and escape. -/
def runSymbol (provider : String → HttpResult) (symbol : String) :
    Except PyErr (String × Bool) :=
  match provider symbol with
  | .timeout => .ok (stockTimeoutMsg symbol, false)
  | .reqError e => .ok (stockNetErrMsg symbol e, false)
  | .success _ (.error e) => .ok (stockNetErrMsg symbol e, false)
  | .success _ (.ok data) =>
      match processBody symbol data with
      | .ok r => .ok r
      | .error (.keyError _) => .ok (stockParseErrMsg symbol, false)
      | .error .valueError => .ok (stockParseErrMsg symbol, false)
      | .error e => .error e

/-- The loop of `fetch_stocks` over the remaining symbols, `i` being the
`enumerate` index of the first of them: emits `sleep 13` before every
request except the very first (`if i > 0`), issues the request, records
the message; `break` stops after recording the rate-limit message, and an
uncaught exception escapes with the events so far.  Returns the events in
program order and the recorded messages in request order. -/
def fetchStocksGo (provider : String → HttpResult) :
    List String → Nat → List StockEvent × Except PyErr (List String)
  | [], _ => ([], .ok [])
  | symbol :: rest, i =>
      let pre : List StockEvent := if i > 0 then [.sleep 13] else []
      match runSymbol provider symbol with
      | .error e => (pre ++ [.request symbol], .error e)
      | .ok (msg, true) => (pre ++ [.request symbol], .ok [msg])
      | .ok (msg, false) =>
          let next := fetchStocksGo provider rest (i + 1)
          (pre ++ [.request symbol] ++ next.1,
            match next.2 with
            | .error e => .error e
            | .ok msgs => .ok (msg :: msgs))

/-- The generic collapse message of `fetch_stocks`. -/
def marketUnavailableMsg : String :=
  "Market data is temporarily unavailable due to an external API issue. Please check back later."

/-- The final collapse test of `fetch_stocks`:
`all("unavailable" in r for r in reports) and len(reports) == len(symbols)`. -/
def stocksAllUnavailable (symbols reports : List String) : Bool :=
  (reports.all fun r => strContainsSub r "unavailable") &&
    reports.length == symbols.length

/-- Model of `fetch_stocks(symbols, api_key)`: `provider` maps each symbol
to the outcome of its `requests.get` (the URL is a function of the symbol
and the key).  Returns the events in program order together with the
returned string, or the uncaught exception. -/
def fetch_stocks (symbols : List String) (apiKey : String)
    (provider : String → HttpResult) :
    List StockEvent × Except PyErr String :=
  let run := fetchStocksGo provider symbols 0
  (run.1,
    match run.2 with
    | .error e => .error e
    | .ok reports =>
        if stocksAllUnavailable symbols reports then .ok marketUnavailableMsg
        else .ok (String.intercalate "\n" reports))

/-- Literal segments of the f-string template of `build_html_digest`, in
order, with the interpolation slots (timestamp, weather, news, stocks, fun
fact) removed; the doubled braces of the source CSS render as single
braces, written escaped. -/
def htmlPart0 : String :=
  "\n    <!DOCTYPE html>\n    <html lang=\"en\">\n    <head>\n        <meta charset=\"UTF-8\">\n        <meta name=\"viewport\" content=\"width=device-width, initial-scale=1.0\">\n        <title>Your Automated Daily Digest</title>\n        <style>\n            body \x7b font-family: Arial, sans-serif; margin: 20px; color: #333; background-color: #f4f4f4; \x7d\n            .container \x7b max-width: 600px; margin: 0 auto; background: #fff; padding: 20px; border-radius: 8px; box-shadow: 0 4px 8px rgba(0,0,0,0.1); \x7d\n            h1 \x7b color: #0056b3; border-bottom: 2px solid #eee; padding-bottom: 10px; \x7d\n            h2 \x7b color: #555; margin-top: 20px; border-bottom: 1px solid #ddd; padding-bottom: 5px; \x7d\n            p, ul \x7b line-height: 1.6; margin-bottom: 15px; \x7d\n            .weather \x7b background: #e0f7fa; padding: 10px; border-radius: 4px; \x7d\n            .stock \x7b background: #f0fff4; padding: 10px; border-radius: 4px; \x7d\n        </style>\n    </head>\n    <body>\n        <div class=\"container\">\n            <h1>Automated Daily Digest</h1>\n            <p style=\"color: #777;\">Generated on "

def htmlPart1 : String :=
  "</p>\n\n            <h2>\u201A\u00F2\u00C4\u00D4\u220F\u00E8 Local Weather</h2>\n            <div class=\"weather\">\n                <p>"

def htmlPart2 : String :=
  "</p>\n            </div>\n            \n            <h2>\uF8FF\u00FC\u00EC\u221E Top Tech News</h2>\n            <p style=\"white-space: pre-wrap;\">"

def htmlPart3 : String :=
  "</p>\n\n            <h2>\uF8FF\u00FC\u00EC\u00E0 Stock Market Snapshot</h2>\n            <div class=\"stock\">\n                <p style=\"white-space: pre-wrap;\">"

def htmlPart4 : String :=
  "</p>\n            </div>\n\n            <h2>\uF8FF\u00FC\u00DF\u2020 Daily Fun Fact</h2>\n            <div style=\"background: #fff3e0; padding: 10px; border-radius: 4px; border-left: 5px solid #ff9800;\">\n                <p><strong>Did you know?</strong> "

def htmlPart5 : String :=
  "</p>\n            </div>\n            \n            <p style=\"text-align: center; font-size: 0.8em; color: #aaa; margin-top: 30px;\">\n                Automated by a Python Script via GitHub Actions\n            </p>\n        </div>\n    </body>\n    </html>\n    "

/-- Model of `build_html_digest(weather_report, news_report, stock_report,
fun_fact)`.  The source also interpolates
`datetime.now().strftime('%Y-%m-%d %H:%M:%S')` — a read of the system
clock at call time — which is made an explicit fifth input `nowStr`. -/
def build_html_digest (weatherReport newsReport stockReport funFact nowStr : String) :
    String :=
  htmlPart0 ++ nowStr ++ htmlPart1 ++ weatherReport ++ htmlPart2 ++ newsReport ++
    htmlPart3 ++ stockReport ++ htmlPart4 ++ funFact ++ htmlPart5

/-- Provider in which every request times out. -/
def timeoutProvider : String → HttpResult := fun _ => HttpResult.timeout

/-- Response body carrying the provider's rate-limit diagnostic. -/
def rateLimitNote : Json :=
  Json.obj [("Note",
    Json.str "Thank you for using Alpha Vantage! Our standard API rate limit is 25 requests per day.")]

/-- Provider that times out except for symbol "B", whose response signals
the rate-limit condition. -/
def rateLimitAtBProvider : String → HttpResult :=
  fun s => if s = "B" then HttpResult.success "" (Except.ok rateLimitNote)
           else HttpResult.timeout

/-- Quote body for a symbol whose percent change is exactly zero. -/
def zeroChangeQuote : Json :=
  Json.obj [("Global Quote", Json.obj
    [("05. price", Json.str "123.45"),
     ("10. change percent", Json.str "0.0000%")])]

/-- Provider returning `zeroChangeQuote` for every symbol. -/
def zeroChangeProvider : String → HttpResult :=
  fun _ => HttpResult.success "" (Except.ok zeroChangeQuote)

/-- Weather body whose `weather` field is an empty list and whose other
fields are well formed. -/
def emptyWeatherListBody : Json :=
  Json.obj [("main", Json.obj [("temp", Json.num 70)]),
    ("weather", Json.arr []),
    ("name", Json.str "San Jose"),
    ("sys", Json.obj [("country", Json.str "US")])]

/-- Weather body whose `temp` field is a string instead of a number. -/
def stringTempBody : Json :=
  Json.obj [("main", Json.obj [("temp", Json.str "70")]),
    ("weather", Json.arr [Json.obj [("description", Json.str "clear sky")]]),
    ("name", Json.str "San Jose"),
    ("sys", Json.obj [("country", Json.str "US")])]

/-- Weather body missing the `main` key entirely. -/
def missingMainBody : Json :=
  Json.obj [("weather", Json.arr [Json.obj [("description", Json.str "clear sky")]]),
    ("name", Json.str "San Jose"),
    ("sys", Json.obj [("country", Json.str "US")])]

/-- News body whose article list is empty. -/
def emptyArticlesBody : Json :=
  Json.obj [("articles", Json.arr [])]

/-! Theorems.  The helper lemmas come first; the claim theorems follow,
one per claim of the specification review. -/

theorem listContainsSub_append_left (n pre post : List Char)
    (h : listContainsSub n post = true) :
    listContainsSub n (pre ++ post) = true := by
  induction pre with
  | nil => simpa using h
  | cons c cs ih =>
      show (n.isPrefixOf (c :: (cs ++ post)) || listContainsSub n (cs ++ post)) = true
      simp [ih]

theorem strContainsSub_append_left (pre post n : String)
    (h : strContainsSub post n = true) :
    strContainsSub (pre ++ post) n = true := by
  unfold strContainsSub at h ⊢
  rw [show (pre ++ post).toList = pre.toList ++ post.toList from String.data_append pre post]
  exact listContainsSub_append_left _ _ _ h

theorem stockTimeoutMsg_unavailable (s : String) :
    strContainsSub (stockTimeoutMsg s) "unavailable" = true := by
  unfold stockTimeoutMsg
  apply strContainsSub_append_left
  decide

theorem fetchStocksGo_all_timeout (provider : String → HttpResult)
    (symbols : List String) (i : Nat)
    (h : ∀ s ∈ symbols, provider s = HttpResult.timeout) :
    (fetchStocksGo provider symbols i).2 =
      Except.ok (symbols.map stockTimeoutMsg) := by
  induction symbols generalizing i with
  | nil => rfl
  | cons s rest ih =>
      have hs : provider s = HttpResult.timeout := h s (by simp)
      have hr : ∀ x ∈ rest, provider x = HttpResult.timeout :=
        fun x hx => h x (by simp [hx])
      simp [fetchStocksGo, runSymbol, hs, ih (i + 1) hr]

theorem fetch_stocks_fst (symbols : List String) (key : String)
    (provider : String → HttpResult) :
    (fetch_stocks symbols key provider).1 = (fetchStocksGo provider symbols 0).1 :=
  rfl

theorem intersperse_sleep_requests (x : StockEvent) (ex : List String) :
    List.intersperse (StockEvent.sleep 13) (x :: ex.map StockEvent.request) =
      x :: ex.flatMap (fun t => [StockEvent.sleep 13, StockEvent.request t]) := by
  induction ex generalizing x with
  | nil => rfl
  | cons y ys ih =>
      simp only [List.map_cons, List.intersperse_cons_cons,
        ih (StockEvent.request y), List.flatMap_cons]
      rfl

theorem fetchStocksGo_events_pos (provider : String → HttpResult)
    (rest : List String) (i : Nat) (hi : 0 < i) :
    ∃ ex : List String, ex <+: rest ∧ (rest ≠ [] → ex ≠ []) ∧
      (fetchStocksGo provider rest i).1 =
        ex.flatMap (fun s => [StockEvent.sleep 13, StockEvent.request s]) := by
  induction rest generalizing i with
  | nil => exact ⟨[], List.nil_prefix, fun h => absurd rfl h, rfl⟩
  | cons s rs ih =>
      have hpre : (if i > 0 then [StockEvent.sleep 13] else ([] : List StockEvent)) =
          [StockEvent.sleep 13] := by simp [hi]
      cases hrun : runSymbol provider s with
      | error e =>
          refine ⟨[s], ⟨rs, rfl⟩, fun _ => by simp, ?_⟩
          simp [fetchStocksGo, hrun, hpre]
      | ok mb =>
          rcases mb with ⟨msg, brk⟩
          cases brk with
          | true =>
              refine ⟨[s], ⟨rs, rfl⟩, fun _ => by simp, ?_⟩
              simp [fetchStocksGo, hrun, hpre]
          | false =>
              obtain ⟨ex, hpref, hne, hev⟩ := ih (i + 1) (by omega)
              obtain ⟨t, ht⟩ := hpref
              refine ⟨s :: ex, ⟨t, by simp [ht]⟩, fun _ => by simp, ?_⟩
              simp [fetchStocksGo, hrun, hpre, hev]

/-- C1: after processing all symbols, the stock fetcher collapses to the
single generic "market data unavailable" message exactly when every
recorded message contains "unavailable" and the message count equals the
symbol count, and otherwise returns the per-symbol lines joined by
newlines in request order; in particular, when every request times out
(as for `["AAPL", "GOOGL"]` with both timing out) the result is the one
generic message. -/
theorem fetch_stocks_collapse_unavailable :
    (∀ (symbols : List String) (key : String) (provider : String → HttpResult)
        (reports : List String),
      (fetchStocksGo provider symbols 0).2 = Except.ok reports →
        (stocksAllUnavailable symbols reports = true →
          (fetch_stocks symbols key provider).2 = Except.ok marketUnavailableMsg)
        ∧ (stocksAllUnavailable symbols reports = false →
          (fetch_stocks symbols key provider).2 =
            Except.ok (String.intercalate "\n" reports)))
    ∧ (∀ (symbols : List String) (key : String) (provider : String → HttpResult),
        (∀ s ∈ symbols, provider s = HttpResult.timeout) →
        (fetch_stocks symbols key provider).2 = Except.ok marketUnavailableMsg) := by
  constructor
  · intro symbols key provider reports hrep
    constructor
    · intro hcond
      simp [fetch_stocks, hrep, hcond]
    · intro hcond
      simp [fetch_stocks, hrep, hcond]
  · intro symbols key provider h
    have hgo := fetchStocksGo_all_timeout provider symbols 0 h
    have hcond : stocksAllUnavailable symbols (symbols.map stockTimeoutMsg) = true := by
      simp [stocksAllUnavailable, List.all_eq_true]
      intro r hr
      exact stockTimeoutMsg_unavailable r
    simp [fetch_stocks, hgo, hcond]

/-- Witness for C1 at the concrete input of the claim: both symbols time
out and the result is the single generic message. -/
theorem fetch_stocks_collapse_unavailable_witness :
    (fetch_stocks ["AAPL", "GOOGL"] "key" timeoutProvider).2 =
      Except.ok marketUnavailableMsg :=
  fetch_stocks_collapse_unavailable.2 ["AAPL", "GOOGL"] "key" timeoutProvider
    (fun s _ => rfl)

/-- C2: when the provider's response for the second of three symbols
signals the rate-limit condition, processing stops at once — the event
trace shows no request for the third symbol — and the result records
exactly two entries: the first symbol's message and one "rate limit hit"
entry for the current symbol. -/
theorem fetch_stocks_rate_limit_hard_stop
    (s1 s2 s3 key : String) (provider : String → HttpResult)
    (m1 : String) (t2 : String) (b2 : Json)
    (h1 : runSymbol provider s1 = Except.ok (m1, false))
    (h2 : provider s2 = HttpResult.success t2 (Except.ok b2))
    (hrl : rateLimitSignal b2 = Except.ok true) :
    fetch_stocks [s1, s2, s3] key provider =
      ([StockEvent.request s1, StockEvent.sleep 13, StockEvent.request s2],
        Except.ok (String.intercalate "\n" [m1, rateLimitMsg s2])) := by
  have hrun2 : runSymbol provider s2 = Except.ok (rateLimitMsg s2, true) := by
    simp [runSymbol, h2, processBody, hrl]
  have hgo : fetchStocksGo provider [s1, s2, s3] 0 =
      ([StockEvent.request s1, StockEvent.sleep 13, StockEvent.request s2],
        Except.ok [m1, rateLimitMsg s2]) := by
    simp [fetchStocksGo, h1, hrun2]
  have hcond : stocksAllUnavailable [s1, s2, s3] [m1, rateLimitMsg s2] = false := by
    simp [stocksAllUnavailable]
  simp [fetch_stocks, hgo, hcond]

/-- Witness for C2: symbol "B" of `["A", "B", "C"]` answers with the
rate-limit note; "A" times out; no request is issued for "C". -/
theorem fetch_stocks_rate_limit_hard_stop_witness :
    fetch_stocks ["A", "B", "C"] "key" rateLimitAtBProvider =
      ([StockEvent.request "A", StockEvent.sleep 13, StockEvent.request "B"],
        Except.ok (String.intercalate "\n"
          [stockTimeoutMsg "A", rateLimitMsg "B"])) :=
  fetch_stocks_rate_limit_hard_stop "A" "B" "C" "key" rateLimitAtBProvider
    (stockTimeoutMsg "A") "" rateLimitNote rfl rfl rfl

unseal Rat.mul Rat.add Rat.inv Rat.sub in
/-- Counterexample to C3 as stated: for a quote whose percent change is
exactly zero the formatted line carries the falling-price indicator (the
source's `else` branch of `change_percent > 0`), not the non-negative
indicator the claim requires. -/
theorem stock_zero_change_gets_down_indicator :
    (fetch_stocks ["AAPL"] "key" zeroChangeProvider).2 =
      Except.ok ("AAPL: $123.45 (0.00%) " ++ "‚ñº")
    ∧ (fetch_stocks ["AAPL"] "key" zeroChangeProvider).2 ≠
      Except.ok ("AAPL: $123.45 (0.00%) " ++ "‚ñ≤") := by
  refine ⟨rfl, ?_⟩
  intro h
  rw [show (fetch_stocks ["AAPL"] "key" zeroChangeProvider).2 =
      Except.ok ("AAPL: $123.45 (0.00%) " ++ "‚ñº") from rfl] at h
  exact absurd (Except.ok.inj h) (by decide)

/-- C3 as amended: for every successfully parsed quote the recorded line
is `SYMBOL: $price (change%) indicator`, with prices and changes in
two-decimal fixed point, where the indicator distinguishes strictly
positive percent change from non-positive — a change of exactly zero
receives the falling-price indicator. -/
theorem stock_line_direction
    (symbol : String) (data quote priceJ cpJ : Json)
    (price cp : ℚ) (cpStr : String)
    (hno : rateLimitSignal data = Except.ok false)
    (hq : pyDictGet data "Global Quote" = Except.ok (some quote))
    (ht : pyTruthy quote = true)
    (hp : pySubscript quote "05. price" = Except.ok priceJ)
    (hpf : pyFloat priceJ = Except.ok price)
    (hcp : pySubscript quote "10. change percent" = Except.ok cpJ)
    (hrep : pyStrReplace cpJ "%" "" = Except.ok cpStr)
    (hparse : parseFloat cpStr = some cp) :
    processBody symbol data =
      Except.ok (symbol ++ ": $" ++ formatFixed 2 price ++ " (" ++
        formatFixed 2 cp ++ "%) " ++
        (if 0 < cp then "‚ñ≤" else "‚ñº"), false) := by
  simp [processBody, hno, hq, ht, hp, hpf, hcp, hrep, hparse, stockLine, changeEmoji]

unseal Rat.mul Rat.add Rat.inv Rat.sub in
/-- Witness for C3's amended theorem at the zero-change quote. -/
theorem stock_line_direction_witness :
    processBody "AAPL" zeroChangeQuote =
      Except.ok ("AAPL" ++ ": $" ++ formatFixed 2 ((12345 : ℚ) / 100) ++ " (" ++
        formatFixed 2 0 ++ "%) " ++
        (if (0 : ℚ) < 0 then "‚ñ≤" else "‚ñº"), false) :=
  stock_line_direction "AAPL" zeroChangeQuote
    (Json.obj [("05. price", Json.str "123.45"), ("10. change percent", Json.str "0.0000%")])
    (Json.str "123.45") (Json.str "0.0000%") ((12345 : ℚ) / 100) 0 "0.0000"
    rfl rfl rfl rfl rfl rfl rfl (by decide)

set_option maxRecDepth 100000 in
/-- Counterexample to C4 as stated: the renderer also reads the system
clock, so two invocations with the same four report strings but different
clock readings produce different output. -/
theorem build_html_digest_clock_dependent :
    build_html_digest "w" "n" "s" "f" "2026-01-01 00:00:00" ≠
      build_html_digest "w" "n" "s" "f" "2026-01-02 00:00:00" := by
  decide

/-- C4 as amended: the renderer is a deterministic function of the four
report strings and the clock reading taken at invocation; two invocations
with the same four report strings produce outputs that agree outside the
interpolated timestamp segment (hence identical output whenever the clock
readings coincide), and the clock read is its only input beyond the four
strings. -/
theorem build_html_digest_deterministic_given_clock
    (w n s f t1 t2 : String) :
    ∃ pre post : String,
      build_html_digest w n s f t1 = pre ++ (t1 ++ post) ∧
      build_html_digest w n s f t2 = pre ++ (t2 ++ post) := by
  refine ⟨htmlPart0,
    htmlPart1 ++ w ++ htmlPart2 ++ n ++ htmlPart3 ++ s ++ htmlPart4 ++ f ++ htmlPart5,
    ?_, ?_⟩ <;>
    simp [build_html_digest, String.append_assoc]

/-- C5 (code bug): a weather body whose `weather` list is empty makes the
extraction raise `IndexError`, and a string-typed `temp` makes the
formatting raise `ValueError`; neither is caught by the function's
`except RequestException` / `except KeyError` clauses, so they escape its
boundary, while the missing-key shape is caught and mapped to the fixed
invalid-format message — the clause that shows absorbing malformed bodies
was the intent. -/
theorem fetch_weather_unhandled_malformed_shapes :
    fetch_weather "San Jose,US" "key"
        (HttpResult.success "" (Except.ok emptyWeatherListBody)) =
      Except.error PyErr.indexError
    ∧ fetch_weather "San Jose,US" "key"
        (HttpResult.success "" (Except.ok stringTempBody)) =
      Except.error PyErr.valueError
    ∧ fetch_weather "San Jose,US" "key"
        (HttpResult.success "" (Except.ok missingMainBody)) =
      Except.ok weatherBadFormatMsg :=
  ⟨rfl, rfl, rfl⟩

/-- C6: for every nonempty symbol list the event trace of the stock
fetcher is the requests of a nonempty prefix of the symbols with exactly
one 13-second sleep between consecutive requests — so the fixed delay
precedes the 2nd and every later request, never the 1st, and no request
is issued before the delay after its predecessor has elapsed. -/
theorem fetch_stocks_sleep_before_later_requests
    (symbols : List String) (key : String) (provider : String → HttpResult)
    (hne : symbols ≠ []) :
    ∃ executed : List String,
      executed ≠ [] ∧ executed <+: symbols ∧
      (fetch_stocks symbols key provider).1 =
        List.intersperse (StockEvent.sleep 13) (executed.map StockEvent.request) := by
  rw [fetch_stocks_fst]
  cases symbols with
  | nil => exact absurd rfl hne
  | cons s rest =>
      cases hrun : runSymbol provider s with
      | error e =>
          refine ⟨[s], by simp, ⟨rest, rfl⟩, ?_⟩
          simp [fetchStocksGo, hrun]
      | ok mb =>
          rcases mb with ⟨msg, brk⟩
          cases brk with
          | true =>
              refine ⟨[s], by simp, ⟨rest, rfl⟩, ?_⟩
              simp [fetchStocksGo, hrun]
          | false =>
              obtain ⟨ex, hpref, hne2, hev⟩ :=
                fetchStocksGo_events_pos provider rest 1 (by omega)
              obtain ⟨t, ht⟩ := hpref
              refine ⟨s :: ex, by simp, ⟨t, by simp [ht]⟩, ?_⟩
              rw [List.map_cons, intersperse_sleep_requests]
              simp [fetchStocksGo, hrun, hev]

/-- Witness for C6 at a concrete nonempty list: the trace for two
timeouts is request, sleep, request. -/
theorem fetch_stocks_sleep_before_later_requests_witness :
    ∃ executed : List String,
      executed ≠ [] ∧ executed <+: ["AAPL", "GOOGL"] ∧
      (fetch_stocks ["AAPL", "GOOGL"] "key" timeoutProvider).1 =
        List.intersperse (StockEvent.sleep 13) (executed.map StockEvent.request) :=
  fetch_stocks_sleep_before_later_requests ["AAPL", "GOOGL"] "key" timeoutProvider
    (by simp)

/-- C7: each of the four fetchers maps a timeout and a connection-level
request failure of its HTTP call to its designated fallback — the
weather, news and fun-fact fetchers return their fixed fallback strings,
and the stock fetcher's per-symbol step records the per-symbol timeout or
network-failure message — and none of them raises past its boundary. -/
theorem fetchers_absorb_network_errors (location topic key sym e : String) :
    fetch_weather location key HttpResult.timeout =
      Except.ok (weatherUnavailableMsg location)
    ∧ fetch_weather location key (HttpResult.reqError e) =
      Except.ok (weatherUnavailableMsg location)
    ∧ fetch_news topic key HttpResult.timeout = Except.ok newsUnavailableMsg
    ∧ fetch_news topic key (HttpResult.reqError e) = Except.ok newsUnavailableMsg
    ∧ fetch_fun_fact HttpResult.timeout = funFactUnavailableMsg
    ∧ fetch_fun_fact (HttpResult.reqError e) = funFactUnavailableMsg
    ∧ runSymbol (fun _ => HttpResult.timeout) sym =
      Except.ok (stockTimeoutMsg sym, false)
    ∧ runSymbol (fun _ => HttpResult.reqError e) sym =
      Except.ok (stockNetErrMsg sym e, false) :=
  ⟨rfl, rfl, rfl, rfl, rfl, rfl, rfl, rfl⟩

set_option maxRecDepth 100000 in
/-- C8: for any four report strings and timestamp, the rendered document
decomposes into the fixed template segments with the timestamp and the
four reports interpolated verbatim in the order weather, news, stocks,
fun fact; each input occurs contiguously in the output; and the fixed
segments carry the document frame, the section labels, and the
`white-space: pre-wrap` styling directly preceding the news and stock
slots, which preserves their newlines visually. -/
theorem build_html_digest_structure (w n s f t : String) :
    build_html_digest w n s f t =
      htmlPart0 ++ t ++ htmlPart1 ++ w ++ htmlPart2 ++ n ++ htmlPart3 ++ s ++
        htmlPart4 ++ f ++ htmlPart5
    ∧ (∃ a b, build_html_digest w n s f t = a ++ (w ++ b))
    ∧ (∃ a b, build_html_digest w n s f t = a ++ (n ++ b))
    ∧ (∃ a b, build_html_digest w n s f t = a ++ (s ++ b))
    ∧ (∃ a b, build_html_digest w n s f t = a ++ (f ++ b))
    ∧ (∃ a b, build_html_digest w n s f t = a ++ (t ++ b))
    ∧ strContainsSub htmlPart0 "<!DOCTYPE html>" = true
    ∧ strContainsSub htmlPart0 "Generated on" = true
    ∧ strContainsSub htmlPart1 "Local Weather" = true
    ∧ strContainsSub htmlPart2 "Top Tech News" = true
    ∧ strContainsSub htmlPart2 "white-space: pre-wrap" = true
    ∧ strContainsSub htmlPart3 "Stock Market Snapshot" = true
    ∧ strContainsSub htmlPart3 "white-space: pre-wrap" = true
    ∧ strContainsSub htmlPart4 "Daily Fun Fact" = true
    ∧ strContainsSub htmlPart5 "</html>" = true := by
  refine ⟨rfl,
    ⟨htmlPart0 ++ t ++ htmlPart1, htmlPart2 ++ n ++ htmlPart3 ++ s ++ htmlPart4 ++ f ++ htmlPart5, ?_⟩,
    ⟨htmlPart0 ++ t ++ htmlPart1 ++ w ++ htmlPart2, htmlPart3 ++ s ++ htmlPart4 ++ f ++ htmlPart5, ?_⟩,
    ⟨htmlPart0 ++ t ++ htmlPart1 ++ w ++ htmlPart2 ++ n ++ htmlPart3, htmlPart4 ++ f ++ htmlPart5, ?_⟩,
    ⟨htmlPart0 ++ t ++ htmlPart1 ++ w ++ htmlPart2 ++ n ++ htmlPart3 ++ s ++ htmlPart4, htmlPart5, ?_⟩,
    ⟨htmlPart0, htmlPart1 ++ w ++ htmlPart2 ++ n ++ htmlPart3 ++ s ++ htmlPart4 ++ f ++ htmlPart5, ?_⟩,
    by decide, by decide, by decide, by decide, by decide, by decide, by decide,
    by decide, by decide⟩ <;>
    simp [build_html_digest, String.append_assoc]

/-- C9: called with an empty symbol list, the stock fetcher issues no
request, sleeps never, and returns the generic "market data unavailable"
collapse message — which is not the empty string — because the collapse
condition holds vacuously with zero messages for zero symbols. -/
theorem fetch_stocks_empty_symbol_list (key : String)
    (provider : String → HttpResult) :
    fetch_stocks [] key provider = ([], Except.ok marketUnavailableMsg)
    ∧ marketUnavailableMsg ≠ "" :=
  ⟨rfl, by decide⟩

/-- C10: a successful news response whose article list is empty yields
the empty string — not the fallback or invalid-format message — so an
empty headline section is indistinguishable from missing content. -/
theorem fetch_news_empty_articles
    (topic key text : String) (data : Json)
    (h : pySubscript data "articles" = Except.ok (Json.arr [])) :
    fetch_news topic key (HttpResult.success text (Except.ok data)) = Except.ok ""
    ∧ ("" : String) ≠ newsUnavailableMsg
    ∧ ("" : String) ≠ newsBadFormatMsg := by
  refine ⟨?_, by decide, by decide⟩
  simp [fetch_news, newsBody, h, pyIterate, newsHeadlines, String.intercalate,
    Bind.bind, Except.bind, pure, Except.pure]

/-- Witness for C10 at a concrete empty-articles body. -/
theorem fetch_news_empty_articles_witness :
    fetch_news "technology" "key"
        (HttpResult.success "" (Except.ok emptyArticlesBody)) = Except.ok ""
    ∧ ("" : String) ≠ newsUnavailableMsg
    ∧ ("" : String) ≠ newsBadFormatMsg :=
  fetch_news_empty_articles "technology" "key" "" emptyArticlesBody rfl

end DailyDigest
